import Mathlib

/-!
# Museum ticketing REST API — shallow embedding

Shallow embedding of the purchase/inventory core of the museum ticketing
backend (Express + Mongoose):

* `Ticket` with its instance methods `isAvailableForPurchase`, `reserveStock`,
  `releaseStock`, `updateStats` (model `Ticket.js`);
* `Purchase` with its virtuals `isValid` / `isExpired` and methods
  `validatePurchase`, `cancelPurchase` (model `Purchase.js`);
* the route handlers `POST /api/purchases` (`createPurchase`) and
  `PATCH /api/purchases/:id/cancel` (`cancelHandler`) from `routes/purchases.js`.

Modelling conventions:
* JS numbers used as money (price, subtotal, tax, total, revenue) are `Rat`;
  the stock counter and quantities are `Int` (the stock field admits the
  sentinel `-1` meaning unlimited); timestamps are `Int` milliseconds, with
  the current time `now` passed explicitly where the JS reads `new Date()`.
* Mongoose documents are immutable Lean structures; a method that mutates and
  saves is a function returning the updated document, and the database is an
  explicit `ServerState` threaded through the route handlers.
* A JS string field that may be `undefined` (`notes`) is a `String`, with `""`
  standing for absent — both are falsy in JS, and the one place the code
  branches on the field (`cancelPurchase`) treats them identically.
* French message texts are kept recognisable but transliterated to ASCII.
-/

namespace Museum

/-- Purchase lifecycle status: the `status` enum of `purchaseSchema`
(`Purchase.js`), values `pending`, `confirmed`, `cancelled`, `refunded`,
`expired`; the schema default is `pending`. -/
inductive Status
  | pending
  | confirmed
  | cancelled
  | refunded
  | expired
deriving DecidableEq, Repr

/-- A ticket document (`ticketSchema` in `Ticket.js`), restricted to the fields
the purchase workflow reads or writes. `stock = -1` is the unlimited sentinel. -/
structure Ticket where
  ttype : String
  price : Rat
  isAvailable : Bool
  stock : Int
  purchaseCount : Int
  revenue : Rat
deriving DecidableEq, Repr

/-- Method `ticketSchema.methods.isAvailableForPurchase(quantity)`:
`if (!this.isAvailable) return false; if (this.stock === -1) return true;
return this.stock >= quantity;`. Pure read. -/
def isAvailableForPurchase (t : Ticket) (quantity : Int) : Bool :=
  if !t.isAvailable then false
  else if t.stock = -1 then true
  else decide (t.stock ≥ quantity)

/-- Method `ticketSchema.methods.reserveStock(quantity)`: unlimited stock returns
`true` without saving (`some t`, unchanged); otherwise if `stock >= quantity`
it decrements and saves (`some` of the updated document); otherwise it returns
`false` (`none`), leaving the document untouched. -/
def reserveStock (t : Ticket) (quantity : Int) : Option Ticket :=
  if t.stock = -1 then some t
  else if t.stock ≥ quantity then some { t with stock := t.stock - quantity }
  else none

/-- Method `ticketSchema.methods.releaseStock(quantity)`: unlimited stock is a no-op;
otherwise increment unconditionally and save. Never fails. -/
def releaseStock (t : Ticket) (quantity : Int) : Ticket :=
  if t.stock = -1 then t
  else { t with stock := t.stock + quantity }

/-- Method `ticketSchema.methods.updateStats(quantity, totalPrice)`: increment the
purchase counter and the revenue counter. -/
def updateStats (t : Ticket) (quantity : Int) (totalPrice : Rat) : Ticket :=
  { t with purchaseCount := t.purchaseCount + quantity
         , revenue := t.revenue + totalPrice }

/-- One line item of `purchaseSchema.items` (`Purchase.js`): ticket reference,
captured label, quantity, captured unit price and line total. -/
structure PurchaseItem where
  ticketId : Nat
  ticketType : String
  quantity : Int
  unitPrice : Rat
  totalPrice : Rat
deriving DecidableEq, Repr

/-- A purchase document (`purchaseSchema` in `Purchase.js`), restricted to the
fields the workflow reads or writes. `id` stands for `_id` and `userId` for
`customer.userId` (the owner scope used by the routes). -/
structure Purchase where
  id : Nat
  userId : Nat
  items : List PurchaseItem
  subtotal : Rat
  tax : Rat
  discount : Rat
  total : Rat
  status : Status
  qrCode : String
  validFrom : Int
  validUntil : Int
  notes : String
deriving DecidableEq, Repr

/-- Virtual `isExpired` (`Purchase.js`): `new Date() > this.validUntil`,
with the current time passed explicitly. -/
def isExpired (p : Purchase) (now : Int) : Bool :=
  decide (now > p.validUntil)

/-- Virtual `isValid` (`Purchase.js`): `this.status === 'confirmed' &&
this.validFrom <= now && this.validUntil >= now`. -/
def isValid (p : Purchase) (now : Int) : Bool :=
  p.status == Status.confirmed
    && decide (p.validFrom ≤ now)
    && decide (p.validUntil ≥ now)

/-- Shape of the object returned by `validatePurchase`: a `valid` flag and, on
failure, an `error` message (the JS success object also carries `purchase:
this`, which is the unmodified receiver and is omitted here). -/
structure ValidationResult where
  valid : Bool
  error : Option String
deriving DecidableEq, Repr

/-- Method `purchaseSchema.methods.validatePurchase()`: rejects when
`status !== 'confirmed'`, then when `isExpired`, otherwise accepts. Pure read
of the document, so modelled as a function of the document and the clock. -/
def validatePurchase (p : Purchase) (now : Int) : ValidationResult :=
  if p.status ≠ Status.confirmed then ⟨false, some "Achat non confirme"⟩
  else if isExpired p now then ⟨false, some "Achat expire"⟩
  else ⟨true, none⟩

/-- Method `purchaseSchema.methods.cancelPurchase(reason)`: only from `confirmed`;
sets status to `cancelled` and appends the reason to `notes`
(`this.notes ? this.notes + "\nAnnule: " + reason : "Annule: " + reason`);
from any other status the returned promise rejects (`none` here) and the
document is untouched. -/
def cancelPurchase (p : Purchase) (reason : String) : Option Purchase :=
  if p.status = Status.confirmed then
    some { p with
      status := Status.cancelled
      notes := if p.notes ≠ "" then p.notes ++ "\nAnnule: " ++ reason
               else "Annule: " ++ reason }
  else none

/-- The ticket collection, keyed by `_id`. -/
abbrev TicketStore := List (Nat × Ticket)

/-- Lookup `Ticket.findById`. -/
def findTicket (ts : TicketStore) (tid : Nat) : Option Ticket :=
  (ts.find? (fun e => e.1 == tid)).map (fun e => e.2)

/-- Persisting a saved ticket document back into the collection. -/
def updateTicket (ts : TicketStore) (tid : Nat) (t : Ticket) : TicketStore :=
  ts.map (fun e => if e.1 == tid then (e.1, t) else e)

/-- The persisted state the purchase routes act on. -/
structure ServerState where
  tickets : TicketStore
  purchases : List Purchase
deriving DecidableEq, Repr

/-- One entry of the request body `items[]` of `POST /api/purchases`. -/
structure RequestItem where
  ticketId : Nat
  quantity : Int
deriving DecidableEq, Repr

/-- The line-validation loop of `POST /api/purchases` (`routes/purchases.js`):
for each requested item, fetch the ticket (400 if absent), check
`isAvailableForPurchase` (400 if not), accumulate
`itemTotal = ticket.price * item.quantity` into `subtotal` and push the
processed line. Returns the processed items and the subtotal, or the first
error message. -/
def validateLines (ts : TicketStore) :
    List RequestItem → List PurchaseItem → Rat →
    Except String (List PurchaseItem × Rat)
  | [], acc, sub => Except.ok (acc.reverse, sub)
  | item :: rest, acc, sub =>
    match findTicket ts item.ticketId with
    | none => Except.error "Billet non trouve"
    | some t =>
      if isAvailableForPurchase t item.quantity then
        let itemTotal := t.price * (item.quantity : Rat)
        validateLines ts rest
          ({ ticketId := item.ticketId, ticketType := t.ttype
           , quantity := item.quantity, unitPrice := t.price
           , totalPrice := itemTotal } :: acc)
          (sub + itemTotal)
      else Except.error "Billet non disponible en cette quantite"

/-- The stock-commit loop of `POST /api/purchases`: for each processed line,
re-fetch the ticket, `reserveStock` (a `false` return — insufficient stock at
commit time — is ignored by the route, so the stock stays as it was) and
`updateStats`. The `none` branch mirrors the JS null-dereference path, which
cannot be reached here: every processed line came from `validateLines`, where
the same lookup succeeded, and nothing removes a ticket in between. -/
def reserveLoop (ts : TicketStore) : List PurchaseItem → TicketStore
  | [] => ts
  | it :: rest =>
    match findTicket ts it.ticketId with
    | none => reserveLoop ts rest
    | some t =>
      let t1 := (reserveStock t it.quantity).getD t
      let t2 := updateStats t1 it.quantity it.totalPrice
      reserveLoop (updateTicket ts it.ticketId t2) rest

/-- Response of `POST /api/purchases`: 400 with a message, or 201 with the
created record. -/
inductive CreateResponse
  | badRequest (message : String)
  | created (p : Purchase)
deriving DecidableEq, Repr

/-- The `POST /api/purchases` handler (`routes/purchases.js`). Arguments that
the JS obtains ambiently are passed explicitly: the authenticated user `uid`,
the generated redemption code `purchaseId`, the fresh document id `pid` and
the clock `now`. On a line error the handler returns 400 before anything is
written. Otherwise `tax = subtotal * 0.18`, `total = subtotal + tax`, and the
new `Purchase` is built WITHOUT a `status` field, so the schema default
`pending` applies (`discount` likewise defaults to `0`); `validUntil` is
`now + 30 days`. The record is saved, then stock is reserved line by line. -/
def createPurchase (s : ServerState) (uid : Nat) (req : List RequestItem)
    (notes : String) (purchaseId : String) (pid : Nat) (now : Int) :
    ServerState × CreateResponse :=
  match validateLines s.tickets req [] 0 with
  | Except.error msg => (s, CreateResponse.badRequest msg)
  | Except.ok (items, subtotal) =>
    let tax := subtotal * (18 / 100)
    let total := subtotal + tax
    let purchase : Purchase :=
      { id := pid, userId := uid, items := items, subtotal := subtotal
      , tax := tax, discount := 0, total := total
      , status := Status.pending
      , qrCode := purchaseId
      , validFrom := now, validUntil := now + 30 * 24 * 60 * 60 * 1000
      , notes := notes }
    let ts1 := reserveLoop s.tickets items
    (⟨ts1, s.purchases ++ [purchase]⟩, CreateResponse.created purchase)

/-- Lookup `Purchase.findOne` on both `_id` and `customer.userId` — the owner scope used
by `GET /api/purchases/:id` and `PATCH /api/purchases/:id/cancel`. -/
def findPurchase (ps : List Purchase) (pid uid : Nat) : Option Purchase :=
  ps.find? (fun p => p.id == pid && p.userId == uid)

/-- Persisting a saved purchase document back into the collection. -/
def updatePurchase (ps : List Purchase) (pid : Nat) (p1 : Purchase) :
    List Purchase :=
  ps.map (fun p => if p.id == pid then p1 else p)

/-- The stock-release loop of `PATCH /api/purchases/:id/cancel`: for each line
of the cancelled purchase, fetch the ticket and, `if (ticket)`, release its
stock (a missing ticket is skipped). -/
def releaseLoop (ts : TicketStore) : List PurchaseItem → TicketStore
  | [] => ts
  | it :: rest =>
    match findTicket ts it.ticketId with
    | none => releaseLoop ts rest
    | some t =>
      releaseLoop (updateTicket ts it.ticketId (releaseStock t it.quantity)) rest

/-- Outcome of `PATCH /api/purchases/:id/cancel`: the resulting state, the
HTTP status and, on 200, the updated record. -/
structure CancelResult where
  state : ServerState
  httpStatus : Nat
  body : Option Purchase
deriving DecidableEq, Repr

/-- The `PATCH /api/purchases/:id/cancel` handler (`routes/purchases.js`):
404 when the owner-scoped lookup misses; then `await purchase.cancelPurchase
(reason)` — whose rejection for a non-confirmed purchase is caught by the
route's generic catch block, which answers 500 — and on success the stock of
every line is released and the handler answers 200 with the updated record. -/
def cancelHandler (s : ServerState) (pid uid : Nat) (reason : String) :
    CancelResult :=
  match findPurchase s.purchases pid uid with
  | none => ⟨s, 404, none⟩
  | some p =>
    match cancelPurchase p reason with
    | none => ⟨s, 500, none⟩
    | some p1 =>
      let ts1 := releaseLoop s.tickets p1.items
      ⟨⟨ts1, updatePurchase s.purchases pid p1⟩, 200, some p1⟩

/-! ## Sample data

Concrete inputs used by the end-to-end instances: the ticket of the spec's
worked example (price 1000, stock 5, available), the state holding it, and
the purchase document the route builds from it. -/

/-- A ticket priced 1000 with stock 5, available. -/
def sampleTicket : Ticket :=
  { ttype := "Entree", price := 1000, isAvailable := true
  , stock := 5, purchaseCount := 0, revenue := 0 }

/-- A store holding only `sampleTicket` under id 1. -/
def sampleState : ServerState := ⟨[(1, sampleTicket)], []⟩

/-- The record `POST /api/purchases` builds for quantity 2 of `sampleTicket`
(user 7, code PUR1, document id 1, clock 0). -/
def samplePurchase : Purchase :=
  { id := 1, userId := 7
  , items := [⟨1, "Entree", 2, 1000, 2000⟩]
  , subtotal := 2000, tax := 360, discount := 0, total := 2360
  , status := Status.pending, qrCode := "PUR1"
  , validFrom := 0, validUntil := 2592000000, notes := "" }

/-- The state after that purchase: stock 3, counters updated, one record. -/
def sampleAfter : ServerState :=
  ⟨[(1, ⟨"Entree", 1000, true, 3, 2, 2000⟩)], [samplePurchase]⟩

/-- A record in the schema-default `pending` status (empty order, id 1,
owner 7, validity window [0, 100]). -/
def pendingPurchase : Purchase :=
  { id := 1, userId := 7, items := [], subtotal := 0, tax := 0, discount := 0
  , total := 0, status := Status.pending, qrCode := "PUR9"
  , validFrom := 0, validUntil := 100, notes := "" }

/-- The same record in `confirmed` status. -/
def confirmedPurchase : Purchase :=
  { pendingPurchase with status := Status.confirmed }

/-- A confirmed record whose validity window has not opened yet at clock 5. -/
def earlyPurchase : Purchase :=
  { confirmedPurchase with validFrom := 10 }

/-- A ticket with the unlimited-stock sentinel. -/
def unlimitedTicket : Ticket :=
  { sampleTicket with stock := -1 }

/-- Evaluation of the purchase route on the sample input. -/
theorem createPurchase_sample_eq :
    createPurchase sampleState 7 [⟨1, 2⟩] "" "PUR1" 1 0
      = (sampleAfter, CreateResponse.created samplePurchase) := by
  simp [createPurchase, validateLines, findTicket, sampleState, sampleTicket,
    isAvailableForPurchase, reserveLoop, reserveStock, updateStats,
    updateTicket, sampleAfter, samplePurchase]
  norm_num

/-! ## Helper lemmas -/

/-- Invariant of the line-validation loop: on success, the returned subtotal
accounts for the returned lines (relative to the accumulator), and every
returned line not already in the accumulator has
`totalPrice = unitPrice * quantity`. -/
theorem validateLines_ok_spec (ts : TicketStore) :
    ∀ (req : List RequestItem) (acc : List PurchaseItem) (sub : Rat)
      (items : List PurchaseItem) (s2 : Rat),
      validateLines ts req acc sub = Except.ok (items, s2) →
      (s2 + (acc.map PurchaseItem.totalPrice).sum
        = sub + (items.map PurchaseItem.totalPrice).sum) ∧
      ∀ it ∈ items, it ∈ acc ∨
        it.totalPrice = it.unitPrice * (it.quantity : Rat) := by
  intro req
  induction req with
  | nil =>
    intro acc sub items s2 h
    simp only [validateLines, Except.ok.injEq, Prod.mk.injEq] at h
    obtain ⟨hi, hs⟩ := h
    subst hi; subst hs
    constructor
    · rw [List.map_reverse, List.sum_reverse]
    · intro it hit
      exact Or.inl (List.mem_reverse.mp hit)
  | cons item rest ih =>
    intro acc sub items s2 h
    cases hf : findTicket ts item.ticketId with
    | none =>
      simp only [validateLines, hf] at h
      exact absurd h (by simp)
    | some t =>
      simp only [validateLines, hf] at h
      by_cases ha : isAvailableForPurchase t item.quantity = true
      · rw [if_pos ha] at h
        obtain ⟨hsum, hmem⟩ := ih _ _ _ _ h
        constructor
        · simp only [List.map_cons, List.sum_cons] at hsum
          linarith
        · intro it hit
          rcases hmem it hit with hin | hok
          · rcases List.mem_cons.mp hin with hpi | hacc
            · exact Or.inr (by rw [hpi])
            · exact Or.inl hacc
          · exact Or.inr hok
      · rw [if_neg ha] at h
        exact absurd h (by simp)


/-- A limited-stock ticket with fewer units than requested is not available
for purchase, whatever its availability flag. -/
theorem not_available_of_low_stock (t : Ticket) (q : Int)
    (h1 : t.stock ≠ -1) (h2 : t.stock < q) :
    isAvailableForPurchase t q = false := by
  have h3 : ¬(t.stock ≥ q) := not_le.mpr h2
  simp [isAvailableForPurchase, h1, h3]

/-- If some requested line wants more than a limited-stock ticket has, the
line-validation loop fails, whatever the accumulator. -/
theorem validateLines_error_of_bad_line (ts : TicketStore) :
    ∀ (req : List RequestItem),
      (∃ item ∈ req, ∃ t, findTicket ts item.ticketId = some t ∧
        t.stock ≠ -1 ∧ t.stock < item.quantity) →
      ∀ (acc : List PurchaseItem) (sub : Rat),
        ∃ msg, validateLines ts req acc sub = Except.error msg := by
  intro req
  induction req with
  | nil => intro h; exact absurd h (by simp)
  | cons item rest ih =>
    intro h acc sub
    obtain ⟨bad, hbad, t, hft, hlim, hlt⟩ := h
    rcases List.mem_cons.mp hbad with hhead | htail
    · subst hhead
      have hna := not_available_of_low_stock t bad.quantity hlim hlt
      refine ⟨"Billet non disponible en cette quantite", ?_⟩
      simp only [validateLines, hft, hna, Bool.false_eq_true, if_false]
    · cases hf : findTicket ts item.ticketId with
      | none =>
        refine ⟨"Billet non trouve", ?_⟩
        simp only [validateLines, hf]
      | some t2 =>
        by_cases ha : isAvailableForPurchase t2 item.quantity = true
        · obtain ⟨msg, hmsg⟩ := ih ⟨bad, htail, t, hft, hlim, hlt⟩
            ({ ticketId := item.ticketId, ticketType := t2.ttype
             , quantity := item.quantity, unitPrice := t2.price
             , totalPrice := t2.price * (item.quantity : Rat) } :: acc)
            (sub + t2.price * (item.quantity : Rat))
          refine ⟨msg, ?_⟩
          simp only [validateLines, hf, if_pos ha]
          exact hmsg
        · refine ⟨"Billet non disponible en cette quantite", ?_⟩
          simp only [validateLines, hf, if_neg ha]

/-! ## Claim theorems -/

/-- C2: `validatePurchase` returns an invalid result with a reason whenever
the record's status is not confirmed; for a confirmed record it returns
invalid with a reason when the clock is strictly past `validUntil`, and valid
otherwise. It is a pure read: in the embedding it is a function of the
document and the clock alone, so it mutates nothing and repeated calls agree
by construction. -/
theorem validatePurchase_spec (p : Purchase) (now : Int) :
    (p.status ≠ Status.confirmed →
      validatePurchase p now = ⟨false, some "Achat non confirme"⟩) ∧
    (p.status = Status.confirmed → p.validUntil < now →
      validatePurchase p now = ⟨false, some "Achat expire"⟩) ∧
    (p.status = Status.confirmed → now ≤ p.validUntil →
      validatePurchase p now = ⟨true, none⟩) := by
  refine ⟨fun h => ?_, fun h1 h2 => ?_, fun h1 h2 => ?_⟩
  · simp [validatePurchase, h]
  · simp [validatePurchase, isExpired, h1, h2]
  · simp [validatePurchase, isExpired, h1, not_lt.mpr h2]

/-- Witness for C2 at concrete records and clocks. -/
theorem validatePurchase_spec_witness :
    validatePurchase pendingPurchase 0 = ⟨false, some "Achat non confirme"⟩ ∧
    validatePurchase confirmedPurchase 200 = ⟨false, some "Achat expire"⟩ ∧
    validatePurchase confirmedPurchase 50 = ⟨true, none⟩ :=
  ⟨(validatePurchase_spec pendingPurchase 0).1 (by decide),
   (validatePurchase_spec confirmedPurchase 200).2.1 rfl (by decide),
   (validatePurchase_spec confirmedPurchase 50).2.2 rfl (by decide)⟩

/-- C4: for a limited-stock ticket with enough stock, `reserveStock q`
followed immediately by `releaseStock q` restores the original document,
stock field included. -/
theorem reserve_release_roundtrip (t : Ticket) (q : Int)
    (hlim : t.stock ≠ -1) (hge : q ≤ t.stock) :
    ∃ t1, reserveStock t q = some t1 ∧ releaseStock t1 q = t := by
  refine ⟨{ t with stock := t.stock - q }, ?_, ?_⟩
  · simp [reserveStock, hlim, hge]
  · have h2 : t.stock - q ≠ -1 := by omega
    have h3 : t.stock - q + q = t.stock := by omega
    simp [releaseStock, h2, h3]

/-- Witness for C4 at the sample ticket (stock 5) and quantity 2. -/
theorem reserve_release_roundtrip_witness :
    ∃ t1, reserveStock sampleTicket 2 = some t1 ∧
      releaseStock t1 2 = sampleTicket :=
  reserve_release_roundtrip sampleTicket 2 (by decide) (by decide)

/-- C5: `isAvailableForPurchase` is true exactly when the availability flag is
set and the stock is the unlimited sentinel or at least the requested
quantity; in particular it is false whenever the quantity exceeds a limited
stock or the flag is off. It is a pure predicate: in the embedding it returns
only a boolean and no updated document. -/
theorem isAvailableForPurchase_spec (t : Ticket) (q : Int) (_hq : 0 < q) :
    isAvailableForPurchase t q = true ↔
      t.isAvailable = true ∧ (t.stock = -1 ∨ q ≤ t.stock) := by
  cases hav : t.isAvailable <;>
    by_cases hs : t.stock = -1 <;>
      simp [isAvailableForPurchase, hav, hs]

/-- Witness for C5: the sample ticket and quantity 6, which exceeds its
stock of 5. -/
theorem isAvailableForPurchase_spec_witness :
    isAvailableForPurchase sampleTicket 6 = true ↔
      sampleTicket.isAvailable = true ∧
        (sampleTicket.stock = -1 ∨ 6 ≤ sampleTicket.stock) :=
  isAvailableForPurchase_spec sampleTicket 6 (by decide)

/-- C7: `cancelPurchase` succeeds exactly from confirmed status: it then sets
the status to cancelled and appends the reason to the notes; from any other
status the promise rejects (`none`) and no updated document is produced, so
the stored record is unchanged. -/
theorem cancelPurchase_spec (p : Purchase) (reason : String) :
    (p.status = Status.confirmed →
      cancelPurchase p reason = some { p with
        status := Status.cancelled
        notes := if p.notes ≠ "" then p.notes ++ "\nAnnule: " ++ reason
                 else "Annule: " ++ reason }) ∧
    (p.status ≠ Status.confirmed → cancelPurchase p reason = none) := by
  constructor <;> intro h <;> simp [cancelPurchase, h]

/-- Witness for C7: a confirmed and a pending record. -/
theorem cancelPurchase_spec_witness :
    cancelPurchase confirmedPurchase "trop tard" =
      some { confirmedPurchase with
        status := Status.cancelled, notes := "Annule: trop tard" } ∧
    cancelPurchase pendingPurchase "trop tard" = none := by
  constructor
  · rw [(cancelPurchase_spec confirmedPurchase "trop tard").1 rfl]
    rfl
  · exact (cancelPurchase_spec pendingPurchase "trop tard").2 (by decide)

/-- C9: for an unlimited-stock ticket (sentinel -1), both `reserveStock` and
`releaseStock` are no-op successes: the document, in particular its stored
stock value, is unchanged. -/
theorem unlimited_stock_frame (t : Ticket) (q : Int) (h : t.stock = -1) :
    reserveStock t q = some t ∧ releaseStock t q = t := by
  constructor <;> simp [reserveStock, releaseStock, h]

/-- Witness for C9 at an unlimited-stock ticket and quantity 4. -/
theorem unlimited_stock_frame_witness :
    reserveStock unlimitedTicket 4 = some unlimitedTicket ∧
    releaseStock unlimitedTicket 4 = unlimitedTicket :=
  unlimited_stock_frame unlimitedTicket 4 (by decide)

/-- C10: `validatePurchase` never consults `validFrom`: a confirmed record
whose `validUntil` has not passed validates successfully even strictly before
`validFrom`, although the `isValid` virtual is false there. -/
theorem validatePurchase_ignores_validFrom (p : Purchase) (now : Int)
    (hc : p.status = Status.confirmed) (hu : now ≤ p.validUntil) :
    validatePurchase p now = ⟨true, none⟩ ∧
    (now < p.validFrom → isValid p now = false) := by
  constructor
  · simp [validatePurchase, isExpired, hc, not_lt.mpr hu]
  · intro hf
    have h2 : ¬(p.validFrom ≤ now) := not_le.mpr hf
    simp [isValid, h2]

/-- Witness for C10: a confirmed record with window [10, 100] at clock 5. -/
theorem validatePurchase_ignores_validFrom_witness :
    validatePurchase earlyPurchase 5 = ⟨true, none⟩ ∧
    (5 < earlyPurchase.validFrom → isValid earlyPurchase 5 = false) :=
  validatePurchase_ignores_validFrom earlyPurchase 5 rfl (by decide)

/-- C3: on any successful purchase request the created record has each line
total equal to unit price times quantity, subtotal the sum of line totals,
tax 18% of the subtotal, discount defaulted to 0 and total subtotal plus tax;
concretely, on the sample ticket (price 1000, stock 5) a purchase of
quantity 2 yields subtotal 2000, tax 360, total 2360, and leaves the ticket
with stock 3. -/
theorem createPurchase_totals :
    (∀ (s : ServerState) (uid : Nat) (req : List RequestItem)
       (notes purchaseId : String) (pid : Nat) (now : Int)
       (s1 : ServerState) (p : Purchase),
       createPurchase s uid req notes purchaseId pid now
         = (s1, CreateResponse.created p) →
       (∀ it ∈ p.items, it.totalPrice = it.unitPrice * (it.quantity : Rat)) ∧
       p.subtotal = (p.items.map PurchaseItem.totalPrice).sum ∧
       p.tax = p.subtotal * (18 / 100) ∧
       p.discount = 0 ∧
       p.total = p.subtotal + p.tax) ∧
    (createPurchase sampleState 7 [⟨1, 2⟩] "" "PUR1" 1 0
        = (sampleAfter, CreateResponse.created samplePurchase) ∧
     samplePurchase.subtotal = 2000 ∧ samplePurchase.tax = 360 ∧
     samplePurchase.total = 2360 ∧
     findTicket sampleAfter.tickets 1
        = some ⟨"Entree", 1000, true, 3, 2, 2000⟩) := by
  constructor
  · intro s uid req notes purchaseId pid now s1 p h
    cases hv : validateLines s.tickets req [] 0 with
    | error msg =>
      simp only [createPurchase, hv] at h
      exact absurd h (by simp)
    | ok pr =>
      obtain ⟨items, s2⟩ := pr
      simp only [createPurchase, hv] at h
      obtain ⟨hsum, hmem⟩ := validateLines_ok_spec s.tickets req [] 0 items s2 hv
      injection h with hA hB
      injection hB with hB
      subst hB
      refine ⟨?_, ?_, rfl, rfl, rfl⟩
      · intro it hit
        rcases hmem it hit with hin | hok
        · exact absurd hin (by simp)
        · exact hok
      · simpa using hsum
  · exact ⟨createPurchase_sample_eq, rfl, rfl, rfl, rfl⟩

/-- Witness for C3: the general part applied to the sample run. -/
theorem createPurchase_totals_witness :
    (∀ it ∈ samplePurchase.items,
      it.totalPrice = it.unitPrice * (it.quantity : Rat)) ∧
    samplePurchase.subtotal
      = (samplePurchase.items.map PurchaseItem.totalPrice).sum ∧
    samplePurchase.tax = samplePurchase.subtotal * (18 / 100) ∧
    samplePurchase.discount = 0 ∧
    samplePurchase.total = samplePurchase.subtotal + samplePurchase.tax :=
  createPurchase_totals.1 sampleState 7 [⟨1, 2⟩] "" "PUR1" 1 0
    sampleAfter samplePurchase createPurchase_sample_eq

/-- A ticket with only one unit in stock. -/
def lowStockTicket : Ticket := { sampleTicket with stock := 1 }

/-- A store holding only `lowStockTicket` under id 1. -/
def lowStockState : ServerState := ⟨[(1, lowStockTicket)], []⟩

/-- C6: a purchase request containing a line whose quantity exceeds the stock
of a limited-stock ticket is rejected with a 400 error before anything is
written: the returned state is exactly the initial one, so no ticket stock
changes and no record is persisted. -/
theorem createPurchase_insufficient_stock_rejected (s : ServerState)
    (uid : Nat) (req : List RequestItem) (notes purchaseId : String)
    (pid : Nat) (now : Int)
    (h : ∃ item ∈ req, ∃ t, findTicket s.tickets item.ticketId = some t ∧
      t.stock ≠ -1 ∧ t.stock < item.quantity) :
    ∃ msg, createPurchase s uid req notes purchaseId pid now
      = (s, CreateResponse.badRequest msg) := by
  obtain ⟨msg, hmsg⟩ := validateLines_error_of_bad_line s.tickets req h [] 0
  exact ⟨msg, by simp only [createPurchase, hmsg]⟩

/-- Witness for C6: requesting quantity 2 of a stock-1 ticket. -/
theorem createPurchase_insufficient_stock_rejected_witness :
    ∃ msg, createPurchase lowStockState 7 [⟨1, 2⟩] "" "PUR3" 1 0
      = (lowStockState, CreateResponse.badRequest msg) :=
  createPurchase_insufficient_stock_rejected lowStockState 7 [⟨1, 2⟩] ""
    "PUR3" 1 0
    ⟨⟨1, 2⟩, by simp, lowStockTicket, rfl, by decide, by decide⟩

/-- C1: the purchase workflow does NOT create records in confirmed status —
the route builds the document without a status field, so the schema default
applies and the freshly persisted record has status `pending`, which the
validation query immediately rejects. Evaluated at the sample input. -/
theorem createPurchase_persists_pending_status :
    ∃ s1 p, createPurchase sampleState 7 [⟨1, 2⟩] "" "PUR1" 1 0
        = (s1, CreateResponse.created p) ∧
      p.status = Status.pending ∧
      p.status ≠ Status.confirmed ∧
      (validatePurchase p 0).valid = false :=
  ⟨sampleAfter, samplePurchase, createPurchase_sample_eq, rfl, by decide, rfl⟩

/-- A store containing only `pendingPurchase` (id 1, owner 7). -/
def pendingState : ServerState := ⟨[], [pendingPurchase]⟩

/-- Counterexample to C8 as stated: for an existing purchase that is not
confirmed, the cancel endpoint answers 500, not 400 — the rejection thrown by
`cancelPurchase` is caught by the route's generic catch block. -/
theorem cancel_endpoint_not_confirmed_500 :
    findPurchase pendingState.purchases 1 7 = some pendingPurchase ∧
    pendingPurchase.status ≠ Status.confirmed ∧
    (cancelHandler pendingState 1 7 "change").httpStatus = 500 ∧
    (cancelHandler pendingState 1 7 "change").httpStatus ≠ 400 :=
  ⟨rfl, by decide, rfl, by decide⟩

/-- C8 (amended): the cancel endpoint answers 404 when the owner-scoped
lookup misses; 500 — not 400 — when the purchase exists but is not confirmed,
leaving the state unchanged; and 200 with the updated, cancelled record on
success. -/
theorem cancel_endpoint_spec (s : ServerState) (pid uid : Nat)
    (reason : String) :
    (findPurchase s.purchases pid uid = none →
      cancelHandler s pid uid reason = ⟨s, 404, none⟩) ∧
    (∀ p, findPurchase s.purchases pid uid = some p →
      p.status ≠ Status.confirmed →
      cancelHandler s pid uid reason = ⟨s, 500, none⟩) ∧
    (∀ p, findPurchase s.purchases pid uid = some p →
      p.status = Status.confirmed →
      ∃ p1, cancelPurchase p reason = some p1 ∧
        p1.status = Status.cancelled ∧
        cancelHandler s pid uid reason
          = ⟨⟨releaseLoop s.tickets p1.items,
              updatePurchase s.purchases pid p1⟩, 200, some p1⟩) := by
  refine ⟨fun h => ?_, fun p hp hs => ?_, fun p hp hs => ?_⟩
  · simp only [cancelHandler, h]
  · have hc : cancelPurchase p reason = none := by simp [cancelPurchase, hs]
    simp only [cancelHandler, hp, hc]
  · have hc : cancelPurchase p reason = some { p with
        status := Status.cancelled
      , notes := if p.notes ≠ "" then p.notes ++ "\nAnnule: " ++ reason
                 else "Annule: " ++ reason } := by
      simp [cancelPurchase, hs]
    exact ⟨_, hc, rfl, by simp only [cancelHandler, hp, hc]⟩

/-- A store containing only `confirmedPurchase` (id 1, owner 7). -/
def confirmedState : ServerState := ⟨[], [confirmedPurchase]⟩

/-- Witness for C8 (amended) at concrete states: missing, pending and
confirmed purchase. -/
theorem cancel_endpoint_spec_witness :
    cancelHandler ⟨[], []⟩ 1 7 "x" = ⟨⟨[], []⟩, 404, none⟩ ∧
    cancelHandler pendingState 1 7 "x" = ⟨pendingState, 500, none⟩ ∧
    ∃ p1, cancelPurchase confirmedPurchase "x" = some p1 ∧
      p1.status = Status.cancelled ∧
      cancelHandler confirmedState 1 7 "x"
        = ⟨⟨releaseLoop confirmedState.tickets p1.items,
            updatePurchase confirmedState.purchases 1 p1⟩, 200, some p1⟩ :=
  ⟨(cancel_endpoint_spec ⟨[], []⟩ 1 7 "x").1 rfl,
   (cancel_endpoint_spec pendingState 1 7 "x").2.1 pendingPurchase rfl
     (by decide),
   (cancel_endpoint_spec confirmedState 1 7 "x").2.2 confirmedPurchase rfl rfl⟩

end Museum
